import Mathlib

/-!
# Verification of the command-execution sandbox of ai-agent-raspberry-pi5

This file gives a shallow embedding in Lean 4 of the two tool-server variants
of the repository (files `scr/tool_server.py` and `src/tool_server.py`) and
proves or refutes the frozen claims about the command guard, the path guard,
the executor and the file operations.

Modelling conventions:
* Python strings are Lean `String`s; `str.lower()` is modelled by mapping
  `Char.toLower` over the characters (both agree on ASCII, which is all the
  guard data uses).
* `shlex.split` (POSIX mode, `whitespace_split=True`, as called by both
  variants) is modelled by an explicit character-level state machine
  `shlexAux`; it raises `ValueError` on an unterminated quote or a trailing
  escape character exactly where CPython does, modelled as `Except.error`.
* `Path(p).resolve()` depends on the state of the file system (symlinks,
  current directory), so the embedding takes the resolution function
  `resolveF : String → String` as an explicit oracle parameter; a claim about
  "the canonical form of a path" becomes a hypothesis about `resolveF p`.
  Concrete witnesses use `resolveF = id` (already-canonical absolute paths).
* The file system is modelled as the list of regular files with their text
  contents (`FS`); directories are not tracked, which is enough for the
  claims about file creation.  `Path.mkdir(parents=True, exist_ok=True)`
  raises `FileExistsError` when the target path is occupied by a regular
  file; the embedding models exactly that failure mode.
* Python exceptions are `Except String`; a `try/except` block is a `match`
  on the embedded body.  Wall-clock timing (`execution_time`) is not
  modelled; the field is omitted from the result structures.
-/

/-- Characters written via code points to keep the embedding free of escape
sequences: space, tab, carriage return, line feed, single quote, double
quote, backslash. -/
def spaceChar : Char := Char.ofNat 32

def tabChar : Char := Char.ofNat 9

def crChar : Char := Char.ofNat 13

def lfChar : Char := Char.ofNat 10

def squoteChar : Char := Char.ofNat 39

def dquoteChar : Char := Char.ofNat 34

def backslashChar : Char := Char.ofNat 92

/-- The whitespace characters of `shlex` (`shlex.whitespace = " \t\r\n"`). -/
def isShlexWhitespace (c : Char) : Bool :=
  c == spaceChar || c == tabChar || c == crChar || c == lfChar

/-- Prefix test on character lists (matching on the pattern first so that
an empty pattern reduces against any list). -/
def listIsPrefix (p l : List Char) : Bool :=
  match p with
  | [] => true
  | a :: as =>
    match l with
    | [] => false
    | b :: bs => a == b && listIsPrefix as bs

/-- Substring containment on character lists, Python's `pat in s` for
strings: some suffix of `l` has `pat` as a prefix. -/
def listContains (l pat : List Char) : Bool :=
  match l with
  | [] => pat.isEmpty
  | _ :: t => listIsPrefix pat l || listContains t pat

/-- Python's `pat in s` on strings. -/
def strContains (s pat : String) : Bool :=
  listContains s.data pat.data

/-- Python's `s.lower()` (agrees on the ASCII data used by the guards):
lower-case every character. -/
def lowerStr (s : String) : String :=
  String.mk (s.data.map Char.toLower)

/-- The slash character. -/
def slashChar : Char := Char.ofNat 47

/-- Python's `s.split(sep)` on a single separator character (always returns
a non-empty list of pieces). -/
def splitChar (sep : Char) : List Char → List (List Char)
  | [] => [[]]
  | c :: rest =>
    let r := splitChar sep rest
    if c == sep then [] :: r
    else
      match r with
      | h :: t => (c :: h) :: t
      | [] => [[c]]

/-- Last element of a list, with a default. -/
def lastD (d : List Char) : List (List Char) → List Char
  | [] => d
  | [x] => x
  | _ :: y :: t => lastD d (y :: t)

/-- The base command name: last component of splitting the first token on
the slash character, with any leading directory path stripped. -/
def baseCmd (tok : String) : String :=
  String.mk (lastD tok.data (splitChar slashChar tok.data))

/-- States of the `shlex` tokenizer: outside a token, inside an unquoted
word, inside single quotes, inside double quotes, after an escape character
outside quotes, after an escape character inside double quotes. -/
inductive ShlexMode where
  | out
  | word
  | squote
  | dquote
  | escWord
  | escDquote
deriving DecidableEq

/-- The POSIX `shlex` state machine (CPython `shlex.read_token` with
`whitespace_split=True`, as used by `shlex.split`).  `acc` is the list of
finished tokens, `tok` the characters of the current token. -/
def shlexAux (acc : List (List Char)) (tok : List Char) (mode : ShlexMode) :
    List Char → Except String (List (List Char))
  | [] =>
    match mode with
    | .out => .ok acc
    | .word => .ok (acc ++ [tok])
    | .squote => .error "No closing quotation"
    | .dquote => .error "No closing quotation"
    | .escWord => .error "No escaped character"
    | .escDquote => .error "No escaped character"
  | c :: rest =>
    match mode with
    | .out =>
      if isShlexWhitespace c then shlexAux acc [] .out rest
      else if c == squoteChar then shlexAux acc tok .squote rest
      else if c == dquoteChar then shlexAux acc tok .dquote rest
      else if c == backslashChar then shlexAux acc tok .escWord rest
      else shlexAux acc (tok ++ [c]) .word rest
    | .word =>
      if isShlexWhitespace c then shlexAux (acc ++ [tok]) [] .out rest
      else if c == squoteChar then shlexAux acc tok .squote rest
      else if c == dquoteChar then shlexAux acc tok .dquote rest
      else if c == backslashChar then shlexAux acc tok .escWord rest
      else shlexAux acc (tok ++ [c]) .word rest
    | .squote =>
      if c == squoteChar then shlexAux acc tok .word rest
      else shlexAux acc (tok ++ [c]) .squote rest
    | .dquote =>
      if c == dquoteChar then shlexAux acc tok .word rest
      else if c == backslashChar then shlexAux acc tok .escDquote rest
      else shlexAux acc (tok ++ [c]) .dquote rest
    | .escWord => shlexAux acc (tok ++ [c]) .word rest
    | .escDquote =>
      if c == dquoteChar || c == backslashChar then
        shlexAux acc (tok ++ [c]) .dquote rest
      else
        shlexAux acc (tok ++ [backslashChar, c]) .dquote rest

/-- `shlex.split(command)`: tokens on success, the `ValueError` message on a
tokenization error. -/
def shlexSplit (s : String) : Except String (List String) :=
  (shlexAux [] [] .out s.data).map (List.map String.mk)

example : shlexSplit "git status; rm -rf /" =
    .ok ["git", "status;", "rm", "-rf", "/"] := rfl

example : shlexSplit "" = .ok [] := rfl

example : shlexSplit "echo \x27unterminated" = .error "No closing quotation" := rfl

example : baseCmd "/usr/bin/ls" = "ls" := by decide

example : strContains "git add notes.txt" "dd" = true := by decide

example : strContains "git add" "rm -rf /" = false := by decide

/-! ## The richer tool-server variant (`scr/tool_server.py`) -/

namespace Scr

/-- `scr/tool_server.py` lines 25-31: the default allow-list. -/
def allowed_commands : List String :=
  ["ls", "cd", "pwd", "cat", "grep", "find", "mkdir", "touch",
   "cp", "mv", "rm", "chmod", "chown", "python", "python3",
   "pip", "git", "docker", "npm", "node", "echo", "curl", "wget",
   "ssh", "scp", "rsync", "tar", "zip", "unzip", "df", "du",
   "head", "tail", "wc", "sort", "uniq", "diff", "patch"]

/-- `scr/tool_server.py` lines 34-37: the restricted path prefixes. -/
def restricted_paths : List String :=
  ["/etc", "/root", "/boot", "/proc", "/sys",
   "/var/lib", "/usr/lib", "/lib", "/bin", "/sbin"]

/-- `scr/tool_server.py` lines 60-64: the dangerous substrings (the fork
bomb's braces are written as code points \x7b and \x7d). -/
def dangerous_patterns : List String :=
  ["rm -rf /", "mkfs", "dd", "> /dev/sda", "chmod 777 /",
   ":()\x7b :|:& \x7d;:", "fork()", "exec(", "system(",
   "shutdown", "reboot", "halt", "poweroff"]

/-- `scr/tool_server.py` line 72: the roots named by the traversal
heuristic. -/
def traversal_roots : List String := ["/etc", "/root", "/boot"]

/-- `scr/tool_server.py` line 40: `self.max_file_size = 10 * 1024 * 1024`. -/
def max_file_size : Nat := 10 * 1024 * 1024

/-- `scr/tool_server.py` lines 44-78, `is_safe_command`: shlex-tokenize
(failing closed on a parse error), reject an empty command, reject a base
command outside the allow-list, reject any dangerous substring of the
lower-cased command, reject the traversal heuristic, otherwise safe. -/
def is_safe_command (allowed : List String) (command : String) : Bool × String :=
  match shlexSplit command with
  | .error e => (false, "Command parsing error: " ++ e)
  | .ok parts =>
    match parts with
    | [] => (false, "Empty command")
    | p0 :: _ =>
      let base_cmd := baseCmd p0
      if base_cmd ∈ allowed then
        let cmd_lower := lowerStr command
        match dangerous_patterns.find? (fun pat => strContains cmd_lower pat) with
        | some pat => (false, "Command contains dangerous pattern: " ++ pat)
        | none =>
          if strContains command ".." &&
              traversal_roots.any (fun x => strContains command x) then
            (false, "Path traversal attempt detected")
          else
            (true, "OK")
      else
        (false, "Command \x27" ++ base_cmd ++ "\x27 not in allowed list")

end Scr

/-! ## The simpler tool-server variant (`src/tool_server.py`) -/

namespace Src

/-- `src/tool_server.py` lines 10-14: the default allow-list (shorter than
the `scr` variant's). -/
def allowed_commands : List String :=
  ["ls", "cd", "pwd", "cat", "grep", "find", "mkdir", "touch",
   "cp", "mv", "rm", "chmod", "chown", "python", "python3",
   "pip", "git", "docker", "npm", "node", "echo", "curl", "wget"]

/-- `src/tool_server.py` lines 144-147: the dangerous substrings. -/
def dangerous_patterns : List String :=
  ["rm -rf /", "mkfs", "dd", "> /dev/sda",
   ":()\x7b :|:& \x7d;:", "chmod 777 /"]

/-- `src/tool_server.py` lines 128-156, `_is_safe_command`: same shape as
the `scr` variant but with no reason string and no traversal heuristic. -/
def _is_safe_command (allowed : List String) (command : String) : Bool :=
  match shlexSplit command with
  | .error _ => false
  | .ok parts =>
    match parts with
    | [] => false
    | p0 :: _ =>
      if baseCmd p0 ∈ allowed then
        let cmd_lower := lowerStr command
        if dangerous_patterns.any (fun pat => strContains cmd_lower pat) then
          false
        else
          true
      else
        false

end Src

/-! ## Helper lemmas about substring containment -/

/-- A list is a prefix of itself followed by anything. -/
theorem listIsPrefix_append_self (b c : List Char) :
    listIsPrefix b (b ++ c) = true := by
  induction b with
  | nil => rfl
  | cons x b ih => simp [listIsPrefix, ih]

/-- Containment of `b` in `a ++ b ++ c`. -/
theorem listContains_append_mid (a b c : List Char) :
    listContains (a ++ b ++ c) b = true := by
  induction a with
  | nil =>
    simp only [List.nil_append]
    cases b with
    | nil =>
      cases c with
      | nil => rfl
      | cons y t => simp [listContains, listIsPrefix]
    | cons x b' =>
      simp only [List.cons_append, listContains, Bool.or_eq_true]
      exact Or.inl (listIsPrefix_append_self (x :: b') c)
  | cons x a ih =>
    simp only [List.cons_append, listContains]
    rw [List.append_assoc] at ih
    simp [ih]

/-- String-level: `b` is contained in `a ++ b ++ c`. -/
theorem strContains_append_mid (a b c : String) :
    strContains (a ++ b ++ c) b = true := by
  have h : (a ++ b ++ c).data = a.data ++ b.data ++ c.data := by
    simp [String.data_append]
  simp only [strContains, h]
  exact listContains_append_mid a.data b.data c.data

/-- String-level: `b` is contained in `a ++ b`. -/
theorem strContains_append_self (a b : String) :
    strContains (a ++ b) b = true := by
  have h := strContains_append_mid a b ""
  simpa using h

/-! ## Claims about the command guard -/

/-- C2: For every command string that contains any DangerPattern as a
case-insensitive substring, `is_safe_command` returns false; moreover,
whenever the leading token is in the allow-list (the only situation in
which the guard reaches its danger-pattern scan), the reason names the
matched pattern.  The `src` variant's boolean `_is_safe_command` likewise
returns false whenever its own pattern list matches. -/
theorem claim_C2 (cmd : String)
    (hd : ∃ p ∈ Scr.dangerous_patterns, strContains (lowerStr cmd) p = true) :
    (Scr.is_safe_command Scr.allowed_commands cmd).1 = false ∧
    (∀ t ts, shlexSplit cmd = Except.ok (t :: ts) →
      baseCmd t ∈ Scr.allowed_commands →
      ∃ p ∈ Scr.dangerous_patterns, strContains (lowerStr cmd) p = true ∧
        strContains (Scr.is_safe_command Scr.allowed_commands cmd).2 p = true) ∧
    (∀ p ∈ Src.dangerous_patterns, strContains (lowerStr cmd) p = true →
      Src._is_safe_command Src.allowed_commands cmd = false) := by
  obtain ⟨p, hp, hc⟩ := hd
  have hfind :
      (Scr.dangerous_patterns.find? fun pat => strContains (lowerStr cmd) pat) ≠
        none := by
    intro hnone
    have := List.find?_eq_none.1 hnone p hp
    simp [hc] at this
  refine ⟨?_, ?_, ?_⟩
  · cases hs : shlexSplit cmd with
    | error e => simp [Scr.is_safe_command, hs]
    | ok parts =>
      cases parts with
      | nil => simp [Scr.is_safe_command, hs]
      | cons t ts =>
        by_cases hmem : baseCmd t ∈ Scr.allowed_commands
        · cases hq :
              Scr.dangerous_patterns.find? fun pat => strContains (lowerStr cmd) pat with
          | none => exact absurd hq hfind
          | some q => simp [Scr.is_safe_command, hs, hmem, hq]
        · simp [Scr.is_safe_command, hs, hmem]
  · intro t ts hparse hmem
    cases hq :
        Scr.dangerous_patterns.find? fun pat => strContains (lowerStr cmd) pat with
    | none => exact absurd hq hfind
    | some q =>
      have hres : Scr.is_safe_command Scr.allowed_commands cmd =
          (false, "Command contains dangerous pattern: " ++ q) := by
        simp [Scr.is_safe_command, hparse, hmem, hq]
      refine ⟨q, List.mem_of_find?_eq_some hq, List.find?_some hq, ?_⟩
      rw [hres]
      exact strContains_append_self "Command contains dangerous pattern: " q
  · intro p' hp' hc'
    cases hs : shlexSplit cmd with
    | error e => simp [Src._is_safe_command, hs]
    | ok parts =>
      cases parts with
      | nil => simp [Src._is_safe_command, hs]
      | cons t ts =>
        by_cases hmem : baseCmd t ∈ Src.allowed_commands
        · have hany : Src.dangerous_patterns.any
              (fun pat => strContains (lowerStr cmd) pat) = true :=
            List.any_eq_true.2 ⟨p', hp', hc'⟩
          simp [Src._is_safe_command, hs, hmem, hany]
        · simp [Src._is_safe_command, hs, hmem]

/-- Witness for C2 at the spec's own example command. -/
theorem claim_C2_witness :
    (∃ p ∈ Scr.dangerous_patterns,
      strContains (lowerStr "git status; rm -rf /") p = true) ∧
    (Scr.is_safe_command Scr.allowed_commands "git status; rm -rf /").1 = false ∧
    strContains
      (Scr.is_safe_command Scr.allowed_commands "git status; rm -rf /").2
      "rm -rf /" = true :=
  ⟨by decide, (claim_C2 "git status; rm -rf /" (by decide)).1, by decide⟩

/-- C3: For every command whose first shell token, after stripping any
leading directory path, is not in the allow-list, the guard returns false
(in the `scr` variant with a reason naming the rejected command; the `src`
variant returns a bare false). -/
theorem claim_C3 (cmd t : String) (ts : List String)
    (hparse : shlexSplit cmd = Except.ok (t :: ts)) :
    (baseCmd t ∉ Scr.allowed_commands →
      (Scr.is_safe_command Scr.allowed_commands cmd).1 = false ∧
      strContains (Scr.is_safe_command Scr.allowed_commands cmd).2
        (baseCmd t) = true) ∧
    (baseCmd t ∉ Src.allowed_commands →
      Src._is_safe_command Src.allowed_commands cmd = false) := by
  constructor
  · intro hmem
    have hres : Scr.is_safe_command Scr.allowed_commands cmd =
        (false, "Command \x27" ++ baseCmd t ++ "\x27 not in allowed list") := by
      simp [Scr.is_safe_command, hparse, hmem]
    rw [hres]
    exact ⟨rfl,
      strContains_append_mid "Command \x27" (baseCmd t) "\x27 not in allowed list"⟩
  · intro hmem
    simp [Src._is_safe_command, hparse, hmem]

/-- Witness for C3 at a command whose base is in neither allow-list. -/
theorem claim_C3_witness :
    shlexSplit "evilcmd --flag" = Except.ok ["evilcmd", "--flag"] ∧
    ((Scr.is_safe_command Scr.allowed_commands "evilcmd --flag").1 = false ∧
     strContains (Scr.is_safe_command Scr.allowed_commands "evilcmd --flag").2
       (baseCmd "evilcmd") = true) ∧
    Src._is_safe_command Src.allowed_commands "evilcmd --flag" = false :=
  ⟨rfl,
   (claim_C3 "evilcmd --flag" "evilcmd" ["--flag"] rfl).1 (by decide),
   (claim_C3 "evilcmd --flag" "evilcmd" ["--flag"] rfl).2 (by decide)⟩

/-- C8: the allow-listed, harmless command "git add notes.txt" is rejected
by both variants because the danger pattern "dd" matches inside the word
"add" by raw substring containment. -/
theorem claim_C8 :
    shlexSplit "git add notes.txt" = Except.ok ["git", "add", "notes.txt"] ∧
    "git" ∈ Scr.allowed_commands ∧
    "git" ∈ Src.allowed_commands ∧
    Scr.is_safe_command Scr.allowed_commands "git add notes.txt" =
      (false, "Command contains dangerous pattern: dd") ∧
    Src._is_safe_command Src.allowed_commands "git add notes.txt" = false :=
  ⟨rfl, by decide, by decide, by decide, by decide⟩

/-! ## Path guard and file operations -/

/-- Modelled from the spec: "under WorkspaceRoot" / the glossary's
"Workspace: the single directory subtree all file writes ... are confined
to" — a canonical path is under the workspace root when it is the root
itself or lies strictly inside its subtree (root plus a path separator is a
prefix).  This is the spec's notion, to be compared with the source's bare
string-prefix test. -/
def specUnder (ws p : String) : Bool :=
  p == ws || listIsPrefix (ws ++ "/").data p.data

/-- A file system: the regular files, as canonical path / text content
pairs.  Directories are not tracked. -/
structure FS where
  files : List (String × String)
deriving DecidableEq

/-- Content of the file at canonical path `p`, if present. -/
def FS.lookup (fs : FS) (p : String) : Option String :=
  (fs.files.find? (fun e => e.1 == p)).map (fun e => e.2)

/-- Writing (creating or overwriting) the file at canonical path `p`. -/
def FS.writeF (fs : FS) (p c : String) : FS :=
  ⟨(p, c) :: fs.files.filter (fun e => !(e.1 == p))⟩

/-- `Path(p).parent` for the absolute slash-separated paths the claims use:
drop the last component. -/
def parentDir (p : String) : String :=
  String.mk (String.intercalate "/"
    ((splitChar slashChar p.data).dropLast.map String.mk)).data

namespace Scr

/-- `scr/tool_server.py` lines 80-102, `is_safe_path`: resolve the path
(modelled by the oracle `resolveF`), reject a resolved path starting with a
restricted prefix, reject the `..`-outside-workspace heuristic, reject a
resolved path that does not start with the workspace string, otherwise
safe.  The comparisons are Python `str.startswith`, i.e. bare string-prefix
tests. -/
def is_safe_path (ws : String) (restricted : List String)
    (resolveF : String → String) (path : String) : Bool × String :=
  match restricted.find? (fun r => listIsPrefix r.data (resolveF path).data) with
  | some r => (false, "Path is in restricted area: " ++ r)
  | none =>
    if strContains (resolveF path) ".." &&
        !(listIsPrefix ws.data (resolveF path).data) then
      (false, "Path traversal outside workspace")
    else if !(listIsPrefix ws.data (resolveF path).data) then
      (false, "Can only write to workspace")
    else
      (true, "OK")

/-- Result dictionary of `scr` `write_file` (absent keys are `none`). -/
structure WriteResult where
  success : Bool
  error : Option String := none
  path : Option String := none
  size : Option Nat := none
  created : Option Bool := none
deriving DecidableEq

/-- `scr/tool_server.py` lines 237-275, `write_file`, body of the `try`
block: validate the path, create the parent directory
(`FileExistsError` when the parent path is an existing regular file —
the only mkdir failure mode the model tracks), reject oversized content,
write, and compute the `created` flag from an existence check made *after*
the write. -/
def write_fileBody (ws : String) (restricted : List String)
    (resolveF : String → String) (fs : FS) (path content : String) :
    Except String (WriteResult × FS) :=
  match is_safe_path ws restricted resolveF path with
  | (false, message) => .ok ({ success := false, error := some message }, fs)
  | (true, _) =>
    if (fs.lookup (resolveF (parentDir path))).isSome then
      .error "FileExistsError"
    else if content.length > max_file_size then
      .ok ({ success := false,
             error := some ("Content too large (" ++ toString content.length ++
               " > " ++ toString max_file_size ++ ")") }, fs)
    else
      .ok ({ success := true, path := some path, size := some content.length,
             created := some
               (!((fs.writeF (resolveF path) content).lookup
                   (resolveF path)).isSome) },
           fs.writeF (resolveF path) content)

/-- `scr/tool_server.py` `write_file`: the whole body runs inside
`try/except Exception`, so any raised error becomes a
`success=false` result with the file system unchanged. -/
def write_file (ws : String) (restricted : List String)
    (resolveF : String → String) (fs : FS) (path content : String) :
    WriteResult × FS :=
  match write_fileBody ws restricted resolveF fs path content with
  | .ok r => r
  | .error e => ({ success := false, error := some e }, fs)

/-- Result dictionary of `scr` `read_file`. -/
structure ReadResult where
  success : Bool
  error : Option String := none
  content : String := ""
  size : Option Nat := none
  is_binary : Option Bool := none
deriving DecidableEq

/-- `scr/tool_server.py` lines 189-235, `read_file`: validate the path,
report a missing file, reject an oversized file, read the text (decoding
with `errors=ignore` never fails, so the binary fallback is unreachable in
the model). -/
def read_file (ws : String) (restricted : List String)
    (resolveF : String → String) (fs : FS) (path : String) : ReadResult :=
  match is_safe_path ws restricted resolveF path with
  | (false, message) => { success := false, error := some message }
  | (true, _) =>
    match fs.lookup (resolveF path) with
    | none => { success := false, error := some "File not found" }
    | some c =>
      if c.length > max_file_size then
        { success := false,
          error := some ("File too large (" ++ toString c.length ++ " > " ++
            toString max_file_size ++ ")") }
      else
        { success := true, content := c, size := some c.length,
          is_binary := some false }

end Scr

namespace Src

/-- Result dictionary of `src` `read_file` (file case; the directory-listing
branch is not modelled, the model's file system holds only regular files). -/
structure ReadResult where
  error : Option String := none
  path : Option String := none
  content : Option String := none
  size : Option Nat := none
deriving DecidableEq

/-- `src/tool_server.py` lines 78-109, `read_file`: resolve, reject only if
the *resolved* string still contains "..", report a missing file, else
return the content.  There is no workspace-confinement check on reads. -/
def read_file (resolveF : String → String) (fs : FS) (path : String) :
    ReadResult :=
  if strContains (resolveF path) ".." then
    { error := some "Path traversal not allowed" }
  else
    match fs.lookup (resolveF path) with
    | none => { error := some "File not found" }
    | some c =>
      { path := some (resolveF path), content := some c, size := some c.length }

/-- Result dictionary of `src` `write_file` (`success` key absent on the
policy-rejection path). -/
structure WriteResult where
  success : Option Bool := none
  error : Option String := none
  path : Option String := none
deriving DecidableEq

/-- `src/tool_server.py` lines 111-126, `write_file`: resolve, reject when
the resolved path does not start with the resolved workspace string (bare
`str.startswith`), create the parent directory (uncaught `FileExistsError`
when the parent path is an existing regular file), then write inside a
`try`.  No size limit is configured in this variant. -/
def write_file (ws : String) (resolveF : String → String) (fs : FS)
    (path content : String) : Except String (WriteResult × FS) :=
  if !(listIsPrefix (resolveF ws).data (resolveF path).data) then
    .ok ({ error := some "Can only write to workspace" }, fs)
  else if (fs.lookup (resolveF (parentDir path))).isSome then
    .error "FileExistsError"
  else
    .ok ({ success := some true, path := some (resolveF path) },
         fs.writeF (resolveF path) content)

end Src

/-- Content of a file just written is found at its path. -/
theorem FS.lookup_writeF_self (fs : FS) (p c : String) :
    (fs.writeF p c).lookup p = some c := by
  simp [FS.writeF, FS.lookup, List.find?]

/-- Whenever the resolved path does not even start with the workspace
string, `scr`'s `is_safe_path` rejects (every branch of the guard ends in a
rejection). -/
theorem is_safe_path_fst_false_of_not_prefix (ws : String)
    (restr : List String) (resolveF : String → String) (p : String)
    (h : listIsPrefix ws.data (resolveF p).data = false) :
    (Scr.is_safe_path ws restr resolveF p).1 = false := by
  unfold Scr.is_safe_path
  cases hf : restr.find? (fun r => listIsPrefix r.data (resolveF p).data) with
  | some r => simp
  | none =>
    cases hc : strContains (resolveF p) ".." <;> simp [hc, h]

/-! ## Claims about the path guard and the file operations -/

/-- C1 (code bug): the write-purpose path check is a bare string-prefix
test (`str(resolved).startswith(str(workspace_dir))`), so the canonical
path "/workspace2/evil.txt", which is NOT under the workspace root
"/workspace", is accepted by `is_safe_path`, and both variants' `write_file`
happily create the file outside the workspace — contradicting the claim
that every such path is rejected. -/
theorem claim_C1_bug :
    Scr.is_safe_path "/workspace" Scr.restricted_paths id
      "/workspace2/evil.txt" = (true, "OK") ∧
    specUnder "/workspace" "/workspace2/evil.txt" = false ∧
    (Scr.write_file "/workspace" Scr.restricted_paths id ⟨[]⟩
      "/workspace2/evil.txt" "x").1.success = true ∧
    ((Scr.write_file "/workspace" Scr.restricted_paths id ⟨[]⟩
      "/workspace2/evil.txt" "x").2.lookup "/workspace2/evil.txt" =
      some "x") ∧
    Src.write_file "/workspace" id ⟨[]⟩ "/workspace2/evil.txt" "x" =
      .ok ({ success := some true, path := some "/workspace2/evil.txt" },
           ⟨[("/workspace2/evil.txt", "x")]⟩) :=
  ⟨by decide, by decide, by decide, by decide, rfl⟩

/-- C4 (amended): in the `scr` variant every read whose resolved path does
not start with the workspace string is rejected before any file access;
the `src` variant has no workspace confinement on reads (see the
counterexample). -/
theorem claim_C4 (ws : String) (restr : List String)
    (resolveF : String → String) (fs : FS) (path : String)
    (h : listIsPrefix ws.data (resolveF path).data = false) :
    (Scr.read_file ws restr resolveF fs path).success = false ∧
    (Scr.read_file ws restr resolveF fs path).error.isSome = true := by
  have hr := is_safe_path_fst_false_of_not_prefix ws restr resolveF path h
  cases hsafe : Scr.is_safe_path ws restr resolveF path with
  | mk b msg =>
    rw [hsafe] at hr
    simp only at hr
    subst hr
    simp [Scr.read_file, hsafe]

/-- Witness for C4 (amended) at a concrete out-of-workspace read. -/
theorem claim_C4_witness :
    listIsPrefix "/workspace".data "/home/user/notes.txt".data = false ∧
    (Scr.read_file "/workspace" Scr.restricted_paths id
      ⟨[("/home/user/notes.txt", "hello")]⟩ "/home/user/notes.txt").success =
      false :=
  ⟨by decide,
   (claim_C4 "/workspace" Scr.restricted_paths id
     ⟨[("/home/user/notes.txt", "hello")]⟩ "/home/user/notes.txt"
     (by decide)).1⟩

/-- C4 (counterexample to the claim as stated): the `src` variant's
`read_file` returns the content of "/etc/passwd" — whose canonical form is
outside the workspace — with no error: reads are not confined to the
workspace boundary there. -/
theorem claim_C4_counterexample :
    specUnder "/workspace" "/etc/passwd" = false ∧
    Src.read_file id ⟨[("/etc/passwd", "root:x:0:0")]⟩ "/etc/passwd" =
      { path := some "/etc/passwd", content := some "root:x:0:0",
        size := some 10, error := none } :=
  ⟨by decide, by decide⟩

/-- C7: oversized content is rejected by `scr`'s `write_file` before
writing — the result is a failure and the file system is unchanged,
whatever the path and prior state. -/
theorem claim_C7 (ws : String) (restr : List String)
    (resolveF : String → String) (fs : FS) (path content : String)
    (h : content.length > Scr.max_file_size) :
    (Scr.write_file ws restr resolveF fs path content).1.success = false ∧
    (Scr.write_file ws restr resolveF fs path content).2 = fs := by
  cases hsafe : Scr.is_safe_path ws restr resolveF path with
  | mk b msg =>
    cases b with
    | false => simp [Scr.write_file, Scr.write_fileBody, hsafe]
    | true =>
      by_cases hpar : (fs.lookup (resolveF (parentDir path))).isSome = true
      · simp [Scr.write_file, Scr.write_fileBody, hsafe, hpar]
      · simp [Scr.write_file, Scr.write_fileBody, hsafe, hpar, h]

/-- Witness for C7: writing 10485761 characters (one more than the 10 MB
limit) fails and leaves the empty file system empty. -/
theorem claim_C7_witness :
    (String.mk (List.replicate 10485761 spaceChar)).length >
      Scr.max_file_size ∧
    (Scr.write_file "/workspace" Scr.restricted_paths id ⟨[]⟩
      "/workspace/a.txt"
      (String.mk (List.replicate 10485761 spaceChar))).1.success = false ∧
    (Scr.write_file "/workspace" Scr.restricted_paths id ⟨[]⟩
      "/workspace/a.txt"
      (String.mk (List.replicate 10485761 spaceChar))).2 = ⟨[]⟩ := by
  have h : (String.mk (List.replicate 10485761 spaceChar)).length >
      Scr.max_file_size := by
    have hlen : (String.mk (List.replicate 10485761 spaceChar)).length =
        10485761 := List.length_replicate 10485761 spaceChar
    rw [hlen]
    decide
  exact ⟨h,
    (claim_C7 "/workspace" Scr.restricted_paths id ⟨[]⟩ "/workspace/a.txt" _ h).1,
    (claim_C7 "/workspace" Scr.restricted_paths id ⟨[]⟩ "/workspace/a.txt" _ h).2⟩

/-- C10: the "created" flag of a successful `scr` `write_file` is computed
from an existence check performed *after* the write, so it is `false` for
every successful write, whatever the path, the content and the prior file
system. -/
theorem claim_C10 (ws : String) (restr : List String)
    (resolveF : String → String) (fs : FS) (path content : String)
    (h : (Scr.write_file ws restr resolveF fs path content).1.success = true) :
    (Scr.write_file ws restr resolveF fs path content).1.created =
      some false := by
  cases hsafe : Scr.is_safe_path ws restr resolveF path with
  | mk b msg =>
    cases b with
    | false => simp [Scr.write_file, Scr.write_fileBody, hsafe] at h
    | true =>
      by_cases hpar : (fs.lookup (resolveF (parentDir path))).isSome = true
      · simp [Scr.write_file, Scr.write_fileBody, hsafe, hpar] at h
      · by_cases hsz : content.length > Scr.max_file_size
        · simp [Scr.write_file, Scr.write_fileBody, hsafe, hpar, hsz] at h
        · simp [Scr.write_file, Scr.write_fileBody, hsafe, hpar, hsz,
            FS.lookup_writeF_self]

/-- Witness for C10: a concrete successful write reports `created = false`
even though the file did not exist before the write. -/
theorem claim_C10_witness :
    (⟨[]⟩ : FS).lookup "/workspace/a.txt" = none ∧
    (Scr.write_file "/workspace" Scr.restricted_paths id ⟨[]⟩
      "/workspace/a.txt" "hi").1.success = true ∧
    (Scr.write_file "/workspace" Scr.restricted_paths id ⟨[]⟩
      "/workspace/a.txt" "hi").1.created = some false :=
  ⟨by decide, by decide,
   claim_C10 "/workspace" Scr.restricted_paths id ⟨[]⟩ "/workspace/a.txt" "hi"
     (by decide)⟩

/-! ## The executor -/

/-- Outcome of `subprocess.run` for the requested command, supplied as an
oracle (the OS decides it): normal completion with captured output and exit
code, `TimeoutExpired`, or some other raised exception. -/
inductive SpawnOutcome where
  | completed (stdout stderr : String) (returncode : Int)
  | timedOut
  | raised (msg : String)

/-- The execution-result dictionary (the wall-clock `execution_time` field
is not modelled; `working_dir` is only present on normal completion). -/
structure ExecResult where
  success : Bool
  stdout : String
  stderr : String
  return_code : Int
  working_dir : Option String := none
deriving DecidableEq

/-- The `try subprocess.run ... except` block shared by both `execute`
variants, `scr/tool_server.py` lines 140-187: every spawn outcome is caught
and turned into a result.  The second component records whether a
subprocess was spawned at all. -/
def runSpawn (spawn : SpawnOutcome) (cwd : String) (timeoutMsg : String) :
    Except String ExecResult × Bool :=
  match spawn with
  | .completed out err rc =>
    (.ok { success := rc == 0, stdout := out, stderr := err,
           return_code := rc, working_dir := some cwd }, true)
  | .timedOut =>
    (.ok { success := false, stdout := "", stderr := timeoutMsg,
           return_code := -1 }, true)
  | .raised m =>
    (.ok { success := false, stdout := "", stderr := "Execution error: " ++ m,
           return_code := -1 }, true)

namespace Scr

/-- `scr/tool_server.py` lines 104-187, `execute`: reject an unsafe command
with `return_code = 1` and the reason in stderr; validate a caller-supplied
working directory with `is_safe_path` and create it with
`mkdir(parents=True, exist_ok=True)` — this call sits OUTSIDE the `try`
block, so its `FileExistsError` (the resolved directory path is an existing
regular file, `files` below) escapes as an exception; then spawn.  The
boolean records whether `subprocess.run` was reached. -/
def execute (ws : String) (allowed : List String) (restricted : List String)
    (resolveF : String → String) (files : List String) (spawn : SpawnOutcome)
    (command : String) (working_dir : Option String) (timeout : Option Nat) :
    Except String ExecResult × Bool :=
  match is_safe_command allowed command with
  | (false, message) =>
    (.ok { success := false, stdout := "",
           stderr := "Security violation: " ++ message, return_code := 1 },
     false)
  | (true, _) =>
    match working_dir with
    | none =>
      runSpawn spawn ws
        ("Command timed out after " ++ toString (timeout.getD 30) ++ " seconds")
    | some wd =>
      match is_safe_path ws restricted resolveF wd with
      | (false, msg) =>
        (.ok { success := false, stdout := "",
               stderr := "Invalid working directory: " ++ msg,
               return_code := 1 }, false)
      | (true, _) =>
        if files.contains (resolveF wd) then
          (.error "FileExistsError", false)
        else
          runSpawn spawn wd
            ("Command timed out after " ++ toString (timeout.getD 30) ++
              " seconds")

end Scr

namespace Src

/-- `src/tool_server.py` lines 17-76, `execute`: an unsafe command yields
`return_code = -1` with the fixed message "Command not allowed" (the
boolean guard produces no reason); the working directory — not validated at
all — is created by `mkdir(parents=True, exist_ok=True)` OUTSIDE the `try`
block, so its failure escapes; then spawn. -/
def execute (ws : String) (allowed : List String)
    (resolveF : String → String) (files : List String) (spawn : SpawnOutcome)
    (command : String) (working_dir : Option String) (timeout : Option Nat) :
    Except String ExecResult × Bool :=
  if _is_safe_command allowed command then
    if files.contains (resolveF (working_dir.getD ws)) then
      (.error "FileExistsError", false)
    else
      runSpawn spawn (working_dir.getD ws)
        ("Command timed out after " ++ toString (timeout.getD 30) ++ "s")
  else
    (.ok { success := false, stdout := "", stderr := "Command not allowed",
           return_code := -1 }, false)

end Src

/-! ## Claims about the executor -/

/-- C5 (counterexample to the claim as stated): `execute` is NOT total.
The working-directory `mkdir` runs outside the `try` block, so when the
requested working directory resolves to an existing regular file
("/workspace/sub" here), the `FileExistsError` escapes `execute` as an
uncaught exception even though both guards approved the call. -/
theorem claim_C5_counterexample :
    Scr.execute "/workspace" Scr.allowed_commands Scr.restricted_paths id
      ["/workspace/sub"] (.completed "" "" 0) "ls" (some "/workspace/sub")
      none = (.error "FileExistsError", false) := rfl

/-- C5 (amended): whenever the working-directory `mkdir` does not fail,
`execute` returns a result for every input (all spawn outcomes are caught);
and `write_file` — whose whole body runs inside `try/except` — turns every
raised error into a `success=false` result with the file system unchanged. -/
theorem claim_C5_amended :
    (∀ (ws : String) (allowed restricted : List String)
      (resolveF : String → String) (files : List String)
      (spawn : SpawnOutcome) (cmd : String) (wd : Option String)
      (t : Option Nat),
      (∀ w, wd = some w → files.contains (resolveF w) = false) →
      ∃ r, (Scr.execute ws allowed restricted resolveF files spawn cmd wd t).1 =
        Except.ok r) ∧
    (∀ (ws : String) (restricted : List String) (resolveF : String → String)
      (fs : FS) (path content e : String),
      Scr.write_fileBody ws restricted resolveF fs path content =
        Except.error e →
      Scr.write_file ws restricted resolveF fs path content =
        ({ success := false, error := some e }, fs)) := by
  constructor
  · intro ws allowed restricted resolveF files spawn cmd wd t hwd
    cases hc : Scr.is_safe_command allowed cmd with
    | mk b m =>
      cases b with
      | false => simp [Scr.execute, hc]
      | true =>
        cases wd with
        | none =>
          cases spawn <;> simp [Scr.execute, hc, runSpawn]
        | some w =>
          cases hp : Scr.is_safe_path ws restricted resolveF w with
          | mk pb pm =>
            cases pb with
            | false => simp [Scr.execute, hc, hp]
            | true =>
              have hw : resolveF w ∉ files := by simpa using hwd w rfl
              cases spawn <;> simp [Scr.execute, hc, hp, hw, runSpawn]
  · intro ws restricted resolveF fs path content e h
    simp [Scr.write_file, h]

/-- Witness for C5 (amended): a concrete approved command runs to a result,
and a concrete failing write (parent path occupied by a file) is reported
as a `success=false` result rather than escaping. -/
theorem claim_C5_amended_witness :
    (∃ r, (Scr.execute "/workspace" Scr.allowed_commands Scr.restricted_paths
      id [] (.completed "hi" "" 0) "echo hi" none none).1 = Except.ok r) ∧
    Scr.write_file "/workspace" Scr.restricted_paths id
      ⟨[("/workspace/d", "z")]⟩ "/workspace/d/f.txt" "hello" =
      ({ success := false, error := some "FileExistsError" },
       ⟨[("/workspace/d", "z")]⟩) :=
  ⟨claim_C5_amended.1 "/workspace" Scr.allowed_commands Scr.restricted_paths
     id [] (.completed "hi" "" 0) "echo hi" none none (by simp),
   claim_C5_amended.2 "/workspace" Scr.restricted_paths id
     ⟨[("/workspace/d", "z")]⟩ "/workspace/d/f.txt" "hello" "FileExistsError"
     rfl⟩

/-- C6 (counterexample to the claim as stated): in the `src` variant a
guard-rejected command yields `return_code = -1`, not the claimed
`exitCode = 1`, and the fixed message "Command not allowed" rather than a
reason naming the cause. -/
theorem claim_C6_counterexample :
    Src._is_safe_command Src.allowed_commands "evilcmd" = false ∧
    Src.execute "/workspace" Src.allowed_commands id [] (.completed "" "" 0)
      "evilcmd" none none =
      (Except.ok
        { success := false, stdout := "",
          stderr := "Command not allowed", return_code := -1 }, false) ∧
    ({ success := false, stdout := "", stderr := "Command not allowed",
       return_code := -1 } : ExecResult).return_code ≠ 1 :=
  ⟨by decide, rfl, by decide⟩

/-- C6 (amended): a guard-rejected command makes `execute` return
immediately with `success=false` and no subprocess spawned (the boolean is
`false`); in the `scr` variant with `return_code = 1` and stderr carrying
the rejection reason, in the `src` variant with `return_code = -1` and the
fixed message "Command not allowed". -/
theorem claim_C6_amended :
    (∀ (ws : String) (allowed restricted : List String)
      (resolveF : String → String) (files : List String)
      (spawn : SpawnOutcome) (cmd : String) (wd : Option String)
      (t : Option Nat),
      (Scr.is_safe_command allowed cmd).1 = false →
      Scr.execute ws allowed restricted resolveF files spawn cmd wd t =
        (Except.ok
          { success := false, stdout := "",
            stderr := "Security violation: " ++
              (Scr.is_safe_command allowed cmd).2,
            return_code := 1 }, false)) ∧
    (∀ (ws : String) (allowed : List String) (resolveF : String → String)
      (files : List String) (spawn : SpawnOutcome) (cmd : String)
      (wd : Option String) (t : Option Nat),
      Src._is_safe_command allowed cmd = false →
      Src.execute ws allowed resolveF files spawn cmd wd t =
        (Except.ok
          { success := false, stdout := "",
            stderr := "Command not allowed", return_code := -1 }, false)) := by
  constructor
  · intro ws allowed restricted resolveF files spawn cmd wd t h
    cases hc : Scr.is_safe_command allowed cmd with
    | mk b m =>
      rw [hc] at h
      simp only at h
      subst h
      simp [Scr.execute, hc]
  · intro ws allowed resolveF files spawn cmd wd t h
    simp [Src.execute, h]

/-- Witness for C6 (amended) at a concrete rejected command. -/
theorem claim_C6_witness :
    (Scr.is_safe_command Scr.allowed_commands "evilcmd").1 = false ∧
    Scr.execute "/workspace" Scr.allowed_commands Scr.restricted_paths id []
      (.completed "" "" 0) "evilcmd" none none =
      (Except.ok
        { success := false, stdout := "",
          stderr := "Security violation: " ++
            (Scr.is_safe_command Scr.allowed_commands "evilcmd").2,
          return_code := 1 }, false) ∧
    Src.execute "/workspace" Src.allowed_commands id [] (.completed "" "" 0)
      "evilcmd" none none =
      (Except.ok
        { success := false, stdout := "",
          stderr := "Command not allowed", return_code := -1 }, false) :=
  ⟨by decide,
   claim_C6_amended.1 "/workspace" Scr.allowed_commands Scr.restricted_paths
     id [] (.completed "" "" 0) "evilcmd" none none (by decide),
   claim_C6_amended.2 "/workspace" Src.allowed_commands id []
     (.completed "" "" 0) "evilcmd" none none (by decide)⟩

/-! ## Directory listing -/

/-- A directory entry as `list_directory` reports it (name, type, size;
the modified-time and permission fields carry no ordering information and
are omitted). -/
structure DirEntry where
  name : String
  isDir : Bool
  size : Nat
deriving DecidableEq

/-- Python's `<` on strings: lexicographic comparison by code point. -/
def charListLt : List Char → List Char → Bool
  | [], [] => false
  | [], _ :: _ => true
  | _ :: _, [] => false
  | a :: as, b :: bs =>
    decide (a.toNat < b.toNat) || (a == b && charListLt as bs)

/-- Python's `<=` on strings (total order, so `a <= b` iff not `b < a`). -/
def strLeB (a b : String) : Bool :=
  ! charListLt b.data a.data

/-- Python's sort key from `scr/tool_server.py` line 312,
`(x["type"] == "directory", x["name"])`, compared non-strictly: tuple
ordering with `False < True`, i.e. non-directories first, then name. -/
def pyKeyLe (a b : DirEntry) : Bool :=
  (!a.isDir && b.isDir) || ((a.isDir == b.isDir) && strLeB a.name b.name)

/-- Stable insertion of `x` before the first element not strictly smaller:
`x` is placed in front of later elements with an equal key, as Python's
stable `sorted` does for an earlier element. -/
def sInsert (x : DirEntry) : List DirEntry → List DirEntry
  | [] => [x]
  | y :: ys => if pyKeyLe x y then x :: y :: ys else y :: sInsert x ys

/-- Python's stable `sorted(..., key=...)`, as a stable insertion sort. -/
def pySorted : List DirEntry → List DirEntry
  | [] => []
  | x :: xs => sInsert x (pySorted xs)

namespace Scr

/-- `scr/tool_server.py` lines 293-312, `list_directory`: iterate over the
directory's entries (second component: whether `item.stat()` succeeds),
skip entries whose stat raises, then
`sorted(files, key=lambda x: (x["type"] == "directory", x["name"]))`. -/
def list_directory_files (raw : List (DirEntry × Bool)) : List DirEntry :=
  pySorted (raw.filterMap (fun e => if e.2 then some e.1 else none))

end Scr

/-- Modelled from the spec: "sorted directories-first then lexicographic by
name" — directories strictly precede files, names ascending within each
group. -/
def specKeyLe (a b : DirEntry) : Bool :=
  (a.isDir && !b.isDir) || ((a.isDir == b.isDir) && strLeB a.name b.name)

/-- Modelled from the spec: a listing is directories-first sorted when every
adjacent pair is ordered by `specKeyLe`. -/
def specDirsFirstSorted : List DirEntry → Bool
  | [] => true
  | [_] => true
  | a :: b :: t => specKeyLe a b && specDirsFirstSorted (b :: t)

/-- Python's string order is asymmetric. -/
theorem charListLt_asymm : ∀ (l1 l2 : List Char),
    charListLt l1 l2 = true → charListLt l2 l1 = false := by
  intro l1
  induction l1 with
  | nil =>
    intro l2 h
    cases l2 with
    | nil => simp [charListLt] at h
    | cons b bs => simp [charListLt]
  | cons a as ih =>
    intro l2 h
    cases l2 with
    | nil => simp [charListLt] at h
    | cons b bs =>
      simp only [charListLt, Bool.or_eq_true, Bool.and_eq_true] at h
      rcases h with h | ⟨heq, hrec⟩
      · have hlt : a.toNat < b.toNat := by simpa using h
        have hne : ¬(b = a) := by
          intro e
          subst e
          exact Nat.lt_irrefl _ hlt
        have h1 : decide (b.toNat < a.toNat) = false := by
          simp only [decide_eq_false_iff_not]
          omega
        simp [charListLt, h1, beq_eq_false_iff_ne.2 hne]
      · have he : a = b := by simpa using heq
        subst he
        have h2 := ih bs hrec
        simp [charListLt, h2]

/-- The code's sort key is total. -/
theorem pyKeyLe_total (a b : DirEntry) :
    pyKeyLe a b = true ∨ pyKeyLe b a = true := by
  unfold pyKeyLe strLeB
  cases ha : a.isDir <;> cases hb : b.isDir <;> simp [ha, hb]
  all_goals
    by_cases h : charListLt b.name.data a.name.data = true
  · exact Or.inr (charListLt_asymm _ _ h)
  · exact Or.inl (by simp at h; exact h)
  · exact Or.inr (charListLt_asymm _ _ h)
  · exact Or.inl (by simp at h; exact h)

/-- Inserting into a `pyKeyLe`-chain preserves the chain. -/
theorem chain'_sInsert (x : DirEntry) (l : List DirEntry)
    (h : List.Chain' (fun u v => pyKeyLe u v = true) l) :
    List.Chain' (fun u v => pyKeyLe u v = true) (sInsert x l) := by
  induction l with
  | nil => simp [sInsert]
  | cons y ys ih =>
    by_cases hxy : pyKeyLe x y = true
    · rw [show sInsert x (y :: ys) = x :: y :: ys from by simp [sInsert, hxy]]
      exact List.chain'_cons.2 ⟨hxy, h⟩
    · have hyx : pyKeyLe y x = true := (pyKeyLe_total x y).resolve_left hxy
      rw [show sInsert x (y :: ys) = y :: sInsert x ys from by
        simp [sInsert, hxy]]
      have hys : List.Chain' (fun u v => pyKeyLe u v = true) ys :=
        List.Chain'.tail h
      have hins := ih hys
      cases ys with
      | nil =>
        simp only [sInsert]
        exact List.chain'_cons.2 ⟨hyx, List.chain'_singleton x⟩
      | cons z zs =>
        by_cases hxz : pyKeyLe x z = true
        · rw [show sInsert x (z :: zs) = x :: z :: zs from by
            simp [sInsert, hxz]]
          exact List.chain'_cons.2 ⟨hyx, List.chain'_cons.2
            ⟨hxz, (List.chain'_cons.1 h).2⟩⟩
        · rw [show sInsert x (z :: zs) = z :: sInsert x zs from by
            simp [sInsert, hxz]]
          have hzs := hins
          rw [show sInsert x (z :: zs) = z :: sInsert x zs from by
            simp [sInsert, hxz]] at hzs
          exact List.chain'_cons.2 ⟨(List.chain'_cons.1 h).1, hzs⟩

/-- The sorted output is a chain for the code's key. -/
theorem pySorted_chain' (l : List DirEntry) :
    List.Chain' (fun u v => pyKeyLe u v = true) (pySorted l) := by
  induction l with
  | nil => simp [pySorted]
  | cons x xs ih => exact chain'_sInsert x (pySorted xs) ih

/-- Insertion permutes. -/
theorem sInsert_perm (x : DirEntry) (l : List DirEntry) :
    (sInsert x l).Perm (x :: l) := by
  induction l with
  | nil => simp [sInsert]
  | cons y ys ih =>
    by_cases h : pyKeyLe x y = true
    · simp [sInsert, h]
    · rw [show sInsert x (y :: ys) = y :: sInsert x ys from by
        simp [sInsert, h]]
      exact (ih.cons y).trans (List.Perm.swap x y ys)

/-- The sort permutes its input. -/
theorem pySorted_perm (l : List DirEntry) : (pySorted l).Perm l := by
  induction l with
  | nil => simp [pySorted]
  | cons x xs ih =>
    exact (sInsert_perm x (pySorted xs)).trans (ih.cons x)

/-! ## Claims about the directory listing -/

/-- C9 (counterexample to the claim as stated): the code's key
`(type == "directory", name)` sorts with `False < True`, so non-directories
come FIRST; a listing with directory "b" and file "a" comes back
`[file a, dir b]`, which is not directories-first.  The entry whose stat
fails ("c") is skipped. -/
theorem claim_C9_counterexample :
    Scr.list_directory_files
      [(⟨"b", true, 0⟩, true), (⟨"a", false, 5⟩, true),
       (⟨"c", false, 1⟩, false)] =
      [⟨"a", false, 5⟩, ⟨"b", true, 0⟩] ∧
    specDirsFirstSorted
      (Scr.list_directory_files
        [(⟨"b", true, 0⟩, true), (⟨"a", false, 5⟩, true),
         (⟨"c", false, 1⟩, false)]) = false :=
  ⟨by decide, by decide⟩

/-- C9 (amended): `list_directory` returns the stat-able entries sorted
files-first (non-directories before directories), then lexicographically by
name within each group — every adjacent pair of the output is ordered by
the code's key — and the output is a permutation of exactly the entries
whose stat succeeded (stat failures are skipped, not fatal). -/
theorem claim_C9 (raw : List (DirEntry × Bool)) :
    List.Chain' (fun u v => pyKeyLe u v = true)
      (Scr.list_directory_files raw) ∧
    (Scr.list_directory_files raw).Perm
      (raw.filterMap (fun e => if e.2 then some e.1 else none)) :=
  ⟨pySorted_chain' _, pySorted_perm _⟩
